import Mathlib

/-!
Verification of the orchestration layer in `hypercorn/asyncio/run.py`.

The development shallowly embeds the module's control logic:

* the per-connection protocol multiplexer `Server` (`connection_made`,
  `data_received`, `eof_received`) as pure state transitions, with the
  protocol handlers (`H11Server`, `H2Server`, `WebsocketServer` — classes
  that live outside this module) abstracted to the interface the
  multiplexer touches: their variant tag, transport reference, seeded
  upgrade request, and the outcome of each `data_received` call;
* `run_single` and `run_multiple` as functions producing the ordered
  trace of externally visible actions they perform;
* `_cancel_all_other_tasks` as a pure function over the terminal
  outcomes of the cancelled tasks;
* the cross-process shutdown `Event` as a boolean flag.
-/

namespace Hypercorn

/-! ## Protocol handlers, as seen by the multiplexer -/

/-- Variant tag of a protocol handler: `H11Server`, `H2Server` or
`WebsocketServer` (the three handler classes the module instantiates). -/
inductive HandlerKind
  | H11Server
  | H2Server
  | WebsocketServer
  deriving DecidableEq, Repr

/-- A protocol handler, abstracted to the fields the multiplexer reads or
sets: its variant, the transport it is bound to (identified by a number),
and the upgrade request it was seeded with (`none` for the initial handler
built by `connection_made`, `some r` for a handler built during an
upgrade swap with `upgrade_request=r`). -/
structure Handler (Req : Type) where
  kind : HandlerKind
  transport : Nat
  upgrade_request : Option Req
  deriving DecidableEq

/-- Result of one call to the active handler's `data_received(data)`:
either a normal return, or one of the two upgrade exceptions, each
carrying the parsed triggering request (`error.request` in the source). -/
inductive DataOutcome (Req : Type)
  | normal
  | websocketProtocolRequired (request : Req)
  | h2cProtocolRequired (request : Req)
  deriving DecidableEq

/-- The `ssl_object` transport extra info: present exactly when the
connection is TLS, exposing `selected_alpn_protocol()` (which may be
`None` when no ALPN protocol was negotiated). -/
structure SSLObject where
  selected_alpn_protocol : Option String
  deriving DecidableEq

/-- State of a `Server` (the per-connection multiplexer) after
`connection_made`: the single active handler slot `_server` and the
`_ssl_enabled` flag. -/
structure ServerState (Req : Type) where
  _server : Handler Req
  _ssl_enabled : Bool
  deriving DecidableEq

/-- Embeds `Server.connection_made`: if the transport carries an
`ssl_object`, record `_ssl_enabled` and take the negotiated ALPN protocol
name; otherwise the protocol is pinned to `"http/1.1"`.  Protocol `"h2"`
selects an `H2Server`, anything else an `H11Server`; the initial handler
is bound to the given transport and seeded with no upgrade request. -/
def Server.connection_made (Req : Type) (ssl_object : Option SSLObject)
    (transport : Nat) : ServerState Req :=
  let ssl_enabled : Bool := ssl_object.isSome
  let protocol : Option String :=
    match ssl_object with
    | some so => so.selected_alpn_protocol
    | none => some "http/1.1"
  let server : Handler Req :=
    if protocol = some "h2" then
      { kind := HandlerKind.H2Server, transport := transport, upgrade_request := none }
    else
      { kind := HandlerKind.H11Server, transport := transport, upgrade_request := none }
  { _server := server, _ssl_enabled := ssl_enabled }

/-- Embeds `Server.data_received`: the chunk is fed to the active handler
(whose reaction is `outcome`); on a normal return the state is unchanged,
on `WebsocketProtocolRequired` the active-handler slot is replaced by a
`WebsocketServer` over the old handler's transport seeded with
`error.request`, and on `H2CProtocolRequired` likewise by an `H2Server`. -/
def Server.data_received {Req : Type} (s : ServerState Req)
    (outcome : DataOutcome Req) : ServerState Req :=
  match outcome with
  | DataOutcome.normal => s
  | DataOutcome.websocketProtocolRequired request =>
      { s with _server :=
          { kind := HandlerKind.WebsocketServer
            transport := s._server.transport
            upgrade_request := some request } }
  | DataOutcome.h2cProtocolRequired request =>
      { s with _server :=
          { kind := HandlerKind.H2Server
            transport := s._server.transport
            upgrade_request := some request } }

/-- Embeds `Server.eof_received`: under SSL it returns `False` outright;
otherwise it returns exactly the active handler's `eof_received()`
(abstracted by `handler_eof`). -/
def Server.eof_received {Req : Type} (handler_eof : Handler Req → Bool)
    (s : ServerState Req) : Bool :=
  if s._ssl_enabled then
    false
  else
    handler_eof s._server

/-- Feeds a sequence of inbound chunks through `Server.data_received`,
recording for each chunk the handler that received it (each chunk goes to
the handler active at the moment of delivery; `outcome` is the handler's
reaction to that chunk).  Returns the final state and the delivery log. -/
def deliverChunks {Req Chunk : Type} (s : ServerState Req) :
    List (Chunk × DataOutcome Req) → ServerState Req × List (Handler Req × Chunk)
  | [] => (s, [])
  | (c, o) :: rest =>
    let next := deliverChunks (Server.data_received s o) rest
    (next.1, (s._server, c) :: next.2)

/-! ## Shutdown flag and poll loop -/

/-- Embeds `multiprocessing.Event.set()` on the shared shutdown flag: the
flag (a boolean, initially unset) becomes set.  `run_multiple` installs
`shutdown` — which just calls `shutdown_event.set()` — as the handler for
the interrupt/terminate signals, so each signal delivery is one
application of this function. -/
def Event.set (_e : Bool) : Bool := true

/-- Embeds the `shutdown` closure of `run_multiple`: the supervisor's
signal handler, whose body is exactly `shutdown_event.set()`. -/
def run_multiple_shutdown (e : Bool) : Bool := Event.set e

/-- Embeds the poll loop of `_check_shutdown`: `observed` is the value of
`shutdown_event.is_set()` at each successive 0.1 s poll; the result is
`some k` when the loop raises `Shutdown` at poll `k` (the first poll that
observes the flag set, after which the loop is gone), `none` if the flag
is never observed set. -/
def _check_shutdown : List Bool → Option Nat
  | [] => none
  | f :: rest =>
    if f then some 0 else (_check_shutdown rest).map (fun i => i + 1)

/-- Successive values of the shutdown flag starting from `e` under `n`
applications of `Event.set` (one per signal delivery / `set()` call). -/
def setTrace (e : Bool) : Nat → List Bool
  | 0 => [e]
  | n + 1 => e :: setTrace (Event.set e) n

/-- Number of meaningful not-requested → requested transitions (a `false`
immediately followed by a `true`) along a sequence of flag values. -/
def meaningful_transitions : List Bool → Nat
  | a :: b :: rest =>
      (if a = false ∧ b = true then 1 else 0) + meaningful_transitions (b :: rest)
  | _ => 0

/-! ## Shutdown exception and `_cancel_all_other_tasks` -/

/-- Embeds `Shutdown.code`: the `Shutdown` exception is a `SystemExit`
subclass whose class attribute `code` is `1`. -/
def Shutdown.code : Nat := 1

/-- Terminal state of a task once the `gather` of `_cancel_all_other_tasks`
has completed: cancelled, completed normally (`exception()` is `None`), or
finished with an exception (the task was already past its cancellation
point). -/
inductive TaskOutcome (E : Type)
  | cancelled
  | completed
  | errored (e : E)
  deriving DecidableEq

/-- One call to `loop.call_exception_handler` made during the teardown:
the context dictionary passed, naming the offending task and its error. -/
structure ExcReport (E : Type) where
  message : String
  exception : E
  task : Nat
  deriving DecidableEq

/-- Embeds `_cancel_all_other_tasks`: every task of the loop other than
the protected (lifespan) task is cancelled, then awaited to a terminal
state via `gather(..., return_exceptions=True)` — which never raises —
and every task that finished with an exception (neither cancelled nor
completed cleanly) is reported through `loop.call_exception_handler`.

Tasks are identified by a number and paired with their terminal outcome
after the gather.  The result is the list of task ids a cancellation
request was issued to, and the list of exception reports; the `Except`
wrapper records that the function returns normally (`.ok`) rather than
re-raising any collected exception. -/
def _cancel_all_other_tasks {E : Type} (all_tasks : List (Nat × TaskOutcome E))
    (protected_task : Nat) : Except E (List Nat × List (ExcReport E)) :=
  let tasks := all_tasks.filter (fun task => task.1 != protected_task)
  let cancels := tasks.map Prod.fst
  let reports := tasks.filterMap (fun task =>
    match task.2 with
    | TaskOutcome.cancelled => none
    | TaskOutcome.completed => none
    | TaskOutcome.errored e =>
        some { message := "unhandled exception during asyncio.run() shutdown"
               exception := e
               task := task.1 })
  Except.ok (cancels, reports)

/-! ## The `run_single` action trace -/

/-- Externally visible actions of `run_single`, in the order the source
performs them. -/
inductive SEv
  | lifespanTaskCreated
  | startupWaited
  | sslContextCreated
  | serverCreated
  | windowsSupportTaskCreated
  | checkShutdownTaskCreated
  | signalHandlersInstalled
  | mainLoopRan
  | serverClosed
  | serverWaitClosed
  | tasksCancelIssued
  | tasksAwaited
  | asyncgensShutdown
  | signalHandlersRemoved
  | removeHandlersSwallowed
  | lifespanShutdownWaited
  | lifespanTaskCancelled
  | lifespanTaskAwaited
  | loopClosed
  | execvCalled
  deriving DecidableEq, Repr

/-- How the main serving loop of `run_single` ends: with the
`MustReloadException` from the reload observer, with the `Shutdown`
exception (a `SystemExit`) raised by a signal handler or by
`_check_shutdown`, or with a `KeyboardInterrupt`. -/
inductive MainLoopExit
  | mustReload
  | shutdownSignal
  | keyboardInterrupt
  deriving DecidableEq, Repr

/-- Environment of one `run_single` call: whether a shared shutdown event
was supplied (worker mode) or OS signal handlers are installed instead,
whether the platform is Windows (extra keep-alive task), whether
`remove_signal_handler` is implemented (else the `NotImplementedError` is
swallowed), and how the main loop ends. -/
structure RunSingleParams where
  has_shutdown_event : Bool
  is_windows : Bool
  remove_handlers_supported : Bool
  exit_cause : MainLoopExit
  deriving DecidableEq

/-- Embeds the action order of `run_single`: lifespan task creation and
startup wait, SSL context and server (acceptor) creation, platform /
shutdown-trigger task setup, the main loop, then the `finally` teardown —
close the acceptor, await `wait_closed`, cancel all non-lifespan tasks
and await them (`_cancel_all_other_tasks`), shut down async generators,
best-effort signal-handler removal, await lifespan shutdown, cancel and
await the lifespan task, close the loop — and, only on a reload exit,
the final `os.execv`.  The teardown lives in a `finally` block, so it
appears exactly once for every exit cause. -/
def run_single_trace (p : RunSingleParams) : List SEv :=
  [SEv.lifespanTaskCreated, SEv.startupWaited, SEv.sslContextCreated, SEv.serverCreated]
  ++ (if p.is_windows then [SEv.windowsSupportTaskCreated] else [])
  ++ (if p.has_shutdown_event then [SEv.checkShutdownTaskCreated]
      else [SEv.signalHandlersInstalled])
  ++ [SEv.mainLoopRan]
  ++ [SEv.serverClosed, SEv.serverWaitClosed, SEv.tasksCancelIssued, SEv.tasksAwaited,
      SEv.asyncgensShutdown]
  ++ (if p.remove_handlers_supported then [SEv.signalHandlersRemoved]
      else [SEv.removeHandlersSwallowed])
  ++ [SEv.lifespanShutdownWaited, SEv.lifespanTaskCancelled, SEv.lifespanTaskAwaited,
      SEv.loopClosed]
  ++ (match p.exit_cause with
      | MainLoopExit.mustReload => [SEv.execvCalled]
      | _ => [])

/-- What `run_single` does after its teardown, as seen by the caller /
the operating system. -/
inductive RunSingleOutcome
  | exitWithCode (code : Nat)
  | execvRestart (executable : String) (argv : List String)
  | normalReturn
  deriving DecidableEq

/-- Embeds the exit behaviour of `run_single`: on `MustReloadException`
the flag `reload_` is set and, after the teardown, `os.execv` re-launches
`sys.executable` with `[sys.executable] + sys.argv`; `SystemExit`
(including `Shutdown`) and `KeyboardInterrupt` are caught with `pass`, so
after the teardown the function simply returns — it does not re-raise and
does not exit the process with the exception's code. -/
def run_single_result (exit_cause : MainLoopExit) (sys_executable : String)
    (sys_argv : List String) : RunSingleOutcome :=
  match exit_cause with
  | MainLoopExit.mustReload =>
      RunSingleOutcome.execvRestart sys_executable (sys_executable :: sys_argv)
  | MainLoopExit.shutdownSignal => RunSingleOutcome.normalReturn
  | MainLoopExit.keyboardInterrupt => RunSingleOutcome.normalReturn

/-! ## The worker-pool supervisor `run_multiple` -/

/-- Configuration fields of `Config` that the dispatch and supervisor
logic of this module reads. -/
structure Config where
  use_reloader : Bool
  workers : Nat
  unix_domain : Option String
  file_descriptor : Option Nat
  host : String
  port : Nat
  deriving DecidableEq

/-- Externally visible actions of `run_multiple`, in order.  `spawn i`,
`join i` and `terminate i` act on the `i`-th worker process. -/
inductive MEv
  | socketCreated
  | socketBound
  | setsockoptReuseaddr
  | setInheritable
  | sigintIgnored
  | shutdownEventCreated
  | spawn (i : Nat)
  | shutdownHandlersInstalled
  | join (i : Nat)
  | terminate (i : Nat)
  | socketClosed
  deriving DecidableEq, Repr

/-- Socket-acquisition actions of `run_multiple` (its first `if` chain):
a Unix-domain socket is created and bound, a configured file descriptor
is wrapped into a socket object via `fromfd` (no bind), and otherwise a
TCP socket (IPv6 when the host contains `":"`, else IPv4) is created and
bound to `(host, port)`.  Each branch yields exactly one socket. -/
def socket_acquisition (config : Config) : List MEv :=
  if config.unix_domain.isSome then
    [MEv.socketCreated, MEv.socketBound]
  else if config.file_descriptor.isSome then
    [MEv.socketCreated]
  else
    [MEv.socketCreated, MEv.socketBound]

/-- Embeds `run_multiple`: a configuration with `use_reloader` raises
`RuntimeError("Reloader can only be used with a single worker")` before
anything else happens (modelled as `.error` with no actions performed);
otherwise the supervisor acquires the socket, sets `SO_REUSEADDR`, marks
the socket inheritable, ignores `SIGINT`, creates the shared shutdown
event, spawns `config.workers` worker processes, installs its own
shutdown signal handlers, joins every worker, terminates every worker
(a no-op for already-exited processes), and finally closes the socket. -/
def run_multiple (config : Config) : Except String (List MEv) :=
  if config.use_reloader then
    Except.error "Reloader can only be used with a single worker"
  else
    Except.ok (socket_acquisition config
      ++ [MEv.setsockoptReuseaddr, MEv.setInheritable, MEv.sigintIgnored,
          MEv.shutdownEventCreated]
      ++ (List.range config.workers).map MEv.spawn
      ++ [MEv.shutdownHandlersInstalled]
      ++ (List.range config.workers).map MEv.join
      ++ (List.range config.workers).map MEv.terminate
      ++ [MEv.socketClosed])

/-- Which runtime `run` dispatches to. -/
inductive RunPath
  | single
  | multiple
  deriving DecidableEq, Repr

/-- Embeds the dispatch decision of `run`: `config.workers == 1` selects
the single-process runtime (`run_single` on a fresh event loop), any
other worker count selects `run_multiple`. -/
def run (config : Config) : RunPath :=
  if config.workers = 1 then RunPath.single else RunPath.multiple

/-! ## Event-ordering vocabulary -/

/-- Puts every `p`-event strictly before every `q`-event in the trace
`l`: whenever position `i` holds a `p`-event and position `j` holds a
`q`-event, `i < j`. -/
def eventsBefore {α : Type} (l : List α) (p q : α → Bool) : Prop :=
  ∀ i j, (hi : i < l.length) → (hj : j < l.length) →
    p (l.get ⟨i, hi⟩) = true → q (l.get ⟨j, hj⟩) = true → i < j

/-- Recognizes `spawn` events. -/
def isSpawn : MEv → Bool
  | MEv.spawn _ => true
  | _ => false

/-- Recognizes `join` events. -/
def isJoin : MEv → Bool
  | MEv.join _ => true
  | _ => false

/-- Recognizes the `socketCreated` event. -/
def isSocketCreated : MEv → Bool
  | MEv.socketCreated => true
  | _ => false

/-- Recognizes the `setInheritable` event. -/
def isSetInheritable : MEv → Bool
  | MEv.setInheritable => true
  | _ => false

/-- Recognizes the `socketClosed` event. -/
def isSocketClosed : MEv → Bool
  | MEv.socketClosed => true
  | _ => false

/-- When no event of `l1` is a `q`-event and no event of `l2` is a
`p`-event, every `p`-event of `l1 ++ l2` is strictly before every
`q`-event. -/
theorem eventsBefore_append {α : Type} {l1 l2 : List α} {p q : α → Bool}
    (h1 : ∀ x ∈ l1, q x = false) (h2 : ∀ x ∈ l2, p x = false) :
    eventsBefore (l1 ++ l2) p q := by
  intro i j hi hj hp hq
  rcases Nat.lt_or_ge i l1.length with hil | hil
  · rcases Nat.lt_or_ge j l1.length with hjl | hjl
    · exfalso
      have hje : (l1 ++ l2).get ⟨j, hj⟩ = l1.get ⟨j, hjl⟩ := by
        simp [List.get_eq_getElem, List.getElem_append_left hjl]
      rw [hje, h1 _ (List.get_mem l1 j hjl)] at hq
      exact Bool.false_ne_true hq
    · omega
  · exfalso
    have hlen : i - l1.length < l2.length := by
      rw [List.length_append] at hi
      omega
    have hie : (l1 ++ l2).get ⟨i, hi⟩ = l2.get ⟨i - l1.length, hlen⟩ := by
      simp [List.get_eq_getElem, List.getElem_append_right hil]
    rw [hie, h2 _ (List.get_mem l2 (i - l1.length) hlen)] at hp
    exact Bool.false_ne_true hp

/-! ## Helper lemmas -/

/-- Delivery preserves every chunk in order: the chunks recorded in the
delivery log are exactly the chunks fed in. -/
theorem deliverChunks_chunks {Req Chunk : Type} (s : ServerState Req)
    (chunks : List (Chunk × DataOutcome Req)) :
    (deliverChunks s chunks).2.map Prod.snd = chunks.map Prod.fst := by
  induction chunks generalizing s with
  | nil => rfl
  | cons hd tl ih =>
    rcases hd with ⟨c, o⟩
    simp [deliverChunks, ih]

/-- The `data_received` transition never clears a seeded upgrade request:
if the active handler was seeded with one, the next active handler is
seeded with one too. -/
theorem data_received_upgrade_persists {Req : Type} (s : ServerState Req)
    (o : DataOutcome Req) (h : s._server.upgrade_request.isSome = true) :
    (Server.data_received s o)._server.upgrade_request.isSome = true := by
  cases o <;> simp [Server.data_received, h]

/-- Once the active handler carries a seeded upgrade request, every
handler that receives a chunk from then on carries one. -/
theorem deliverChunks_upgrade_persists {Req Chunk : Type} (s : ServerState Req)
    (chunks : List (Chunk × DataOutcome Req))
    (h : s._server.upgrade_request.isSome = true) :
    ∀ d ∈ (deliverChunks s chunks).2, d.1.upgrade_request.isSome = true := by
  induction chunks generalizing s with
  | nil =>
    intro d hd
    simp [deliverChunks] at hd
  | cons hd tl ih =>
    rcases hd with ⟨c, o⟩
    intro d hd
    simp only [deliverChunks, List.mem_cons] at hd
    rcases hd with rfl | hd
    · exact h
    · exact ih (Server.data_received s o) (data_received_upgrade_persists s o h) d hd

/-! ## Claim theorems -/

/-- C1: when the active handler raises a WebSocket-upgrade or
HTTP/2-via-upgrade signal while processing a chunk, the multiplexer
installs a new handler of the requested variant (`WebsocketServer` or
`H2Server`) over the same transport as the old handler, seeded with the
triggering request carried in the signal; every chunk is delivered to
exactly one active handler in order (none duplicated, none dropped), the
chunk following the swap is delivered to the newly installed handler, and
the pre-upgrade initial handler never receives a chunk after the swap. -/
theorem upgrade_swap_exclusive_delivery (Req Chunk : Type) (s : ServerState Req)
    (req : Req) (chunks : List (Chunk × DataOutcome Req)) :
    ((Server.data_received s (DataOutcome.websocketProtocolRequired req))._server
      = { kind := HandlerKind.WebsocketServer, transport := s._server.transport,
          upgrade_request := some req }) ∧
    ((Server.data_received s (DataOutcome.h2cProtocolRequired req))._server
      = { kind := HandlerKind.H2Server, transport := s._server.transport,
          upgrade_request := some req }) ∧
    ((deliverChunks s chunks).2.map Prod.snd = chunks.map Prod.fst) ∧
    (∀ (c : Chunk) (co : Chunk × DataOutcome Req) (rest : List (Chunk × DataOutcome Req)),
      chunks = (c, DataOutcome.websocketProtocolRequired req) :: co :: rest →
      ((deliverChunks s chunks).2)[1]?
        = some ((Server.data_received s (DataOutcome.websocketProtocolRequired req))._server,
            co.1)) ∧
    (s._server.upgrade_request = none →
      ∀ d ∈ (deliverChunks
          (Server.data_received s (DataOutcome.websocketProtocolRequired req)) chunks).2,
        d.1 ≠ s._server) := by
  refine ⟨rfl, rfl, deliverChunks_chunks s chunks, ?_, ?_⟩
  · intro c co rest h
    subst h
    rcases co with ⟨c2, o2⟩
    simp [deliverChunks, Server.data_received]
  · intro h0 d hd
    intro hcontra
    have hsome := deliverChunks_upgrade_persists
      (Server.data_received s (DataOutcome.websocketProtocolRequired req)) chunks
      (by simp [Server.data_received]) d hd
    rw [hcontra, h0] at hsome
    simp at hsome

/-- Witness for C1 at a concrete run: an `H11Server` handler on transport
5 raises a WebSocket upgrade for request 7 while consuming chunk 1; the
following chunk 2 is delivered to the freshly installed `WebsocketServer`
seeded with request 7 on transport 5. -/
theorem upgrade_swap_exclusive_delivery_witness :
    ((deliverChunks
        { _server := { kind := HandlerKind.H11Server, transport := 5, upgrade_request := none },
          _ssl_enabled := false }
        [((1 : Nat), DataOutcome.websocketProtocolRequired (7 : Nat)),
         ((2 : Nat), DataOutcome.normal)]).2)[1]?
      = some ({ kind := HandlerKind.WebsocketServer, transport := 5,
                upgrade_request := some 7 }, 2) :=
  (upgrade_swap_exclusive_delivery Nat Nat
      { _server := { kind := HandlerKind.H11Server, transport := 5, upgrade_request := none },
        _ssl_enabled := false } 7
      [((1 : Nat), DataOutcome.websocketProtocolRequired (7 : Nat)),
       ((2 : Nat), DataOutcome.normal)]).2.2.2.1
    1 ((2 : Nat), DataOutcome.normal) [] rfl

/-- C2: `connection_made` selects the initial handler from transport
metadata: the HTTP/2 variant exactly when TLS is present and the
negotiated ALPN protocol is `"h2"`, the HTTP/1.1 variant in every other
case, never the WebSocket variant and never both; the handler is bound to
the given transport with no seeded upgrade request, and `_ssl_enabled`
records TLS presence. -/
theorem connection_made_initial_handler (Req : Type) (ssl_object : Option SSLObject)
    (transport : Nat) :
    ((Server.connection_made Req ssl_object transport)._server.kind = HandlerKind.H2Server
      ↔ ∃ so, ssl_object = some so ∧ so.selected_alpn_protocol = some "h2") ∧
    ((Server.connection_made Req ssl_object transport)._server.kind = HandlerKind.H11Server
      ↔ ¬ ∃ so, ssl_object = some so ∧ so.selected_alpn_protocol = some "h2") ∧
    ((Server.connection_made Req ssl_object transport)._server.kind
      ≠ HandlerKind.WebsocketServer) ∧
    ((Server.connection_made Req ssl_object transport)._ssl_enabled = ssl_object.isSome) ∧
    ((Server.connection_made Req ssl_object transport)._server.transport = transport) ∧
    ((Server.connection_made Req ssl_object transport)._server.upgrade_request = none) := by
  rcases ssl_object with _ | so
  · simp [Server.connection_made]
  · by_cases h : so.selected_alpn_protocol = some "h2" <;>
      simp [Server.connection_made, h]

/-- Witness for C2: with TLS negotiating ALPN `"h2"`, the initial handler
is the HTTP/2 variant. -/
theorem connection_made_initial_handler_witness :
    (Server.connection_made Nat (some { selected_alpn_protocol := some "h2" }) 3)._server.kind
      = HandlerKind.H2Server :=
  (connection_made_initial_handler Nat (some { selected_alpn_protocol := some "h2" }) 3).1.mpr
    ⟨{ selected_alpn_protocol := some "h2" }, rfl, rfl⟩

/-- C8: `eof_received` delegates the half-close decision to the active
handler: under TLS it yields `false` (the connection does not continue
half-closed), and in the plain case its result is exactly the active
handler's `eof_received` result. -/
theorem eof_received_delegation (Req : Type) (handler_eof : Handler Req → Bool)
    (s : ServerState Req) :
    (s._ssl_enabled = true → Server.eof_received handler_eof s = false) ∧
    (s._ssl_enabled = false → Server.eof_received handler_eof s = handler_eof s._server) := by
  constructor <;> intro h <;> simp [Server.eof_received, h]

/-- Witness for C8: a TLS connection refuses half-closed operation, and a
plain connection returns the handler's own answer (here `true`). -/
theorem eof_received_delegation_witness :
    (Server.eof_received (fun _ : Handler Nat => true)
      { _server := { kind := HandlerKind.H11Server, transport := 0, upgrade_request := none },
        _ssl_enabled := true } = false) ∧
    (Server.eof_received (fun _ : Handler Nat => true)
      { _server := { kind := HandlerKind.H11Server, transport := 0, upgrade_request := none },
        _ssl_enabled := false } = true) :=
  ⟨(eof_received_delegation Nat (fun _ => true)
      { _server := { kind := HandlerKind.H11Server, transport := 0, upgrade_request := none },
        _ssl_enabled := true }).1 rfl,
   (eof_received_delegation Nat (fun _ => true)
      { _server := { kind := HandlerKind.H11Server, transport := 0, upgrade_request := none },
        _ssl_enabled := false }).2 rfl⟩

/-- C3: in `run_single` the lifespan startup wait completes before the
acceptor is created, and the teardown is strictly ordered: the acceptor
is closed and confirmed closed before any non-lifespan task cancellation
is issued, all cancelled tasks are awaited to a terminal state before the
lifespan shutdown wait begins, and the lifespan task is cancelled only
after the lifespan shutdown wait completes — in every environment
(worker or standalone, any platform, any exit cause). -/
theorem run_single_shutdown_ordering (p : RunSingleParams) :
    ((run_single_trace p).count SEv.startupWaited = 1) ∧
    ((run_single_trace p).count SEv.serverCreated = 1) ∧
    ((run_single_trace p).count SEv.serverClosed = 1) ∧
    ((run_single_trace p).count SEv.serverWaitClosed = 1) ∧
    ((run_single_trace p).count SEv.tasksCancelIssued = 1) ∧
    ((run_single_trace p).count SEv.tasksAwaited = 1) ∧
    ((run_single_trace p).count SEv.lifespanShutdownWaited = 1) ∧
    ((run_single_trace p).count SEv.lifespanTaskCancelled = 1) ∧
    ((run_single_trace p).indexOf SEv.startupWaited
      < (run_single_trace p).indexOf SEv.serverCreated) ∧
    ((run_single_trace p).indexOf SEv.serverClosed
      < (run_single_trace p).indexOf SEv.serverWaitClosed) ∧
    ((run_single_trace p).indexOf SEv.serverWaitClosed
      < (run_single_trace p).indexOf SEv.tasksCancelIssued) ∧
    ((run_single_trace p).indexOf SEv.tasksCancelIssued
      < (run_single_trace p).indexOf SEv.tasksAwaited) ∧
    ((run_single_trace p).indexOf SEv.tasksAwaited
      < (run_single_trace p).indexOf SEv.lifespanShutdownWaited) ∧
    ((run_single_trace p).indexOf SEv.lifespanShutdownWaited
      < (run_single_trace p).indexOf SEv.lifespanTaskCancelled) := by
  obtain ⟨hse, iw, rhs, ex⟩ := p
  cases hse <;> cases iw <;> cases rhs <;> cases ex <;> decide

/-- Witness for C3 in a concrete environment: a pool worker on a
Unix-like platform shut down by the shared flag. -/
theorem run_single_shutdown_ordering_witness :
    (run_single_trace
        { has_shutdown_event := true, is_windows := false,
          remove_handlers_supported := true,
          exit_cause := MainLoopExit.shutdownSignal }).indexOf SEv.tasksAwaited
      < (run_single_trace
        { has_shutdown_event := true, is_windows := false,
          remove_handlers_supported := true,
          exit_cause := MainLoopExit.shutdownSignal }).indexOf SEv.lifespanShutdownWaited :=
  (run_single_shutdown_ordering
    { has_shutdown_event := true, is_windows := false,
      remove_handlers_supported := true,
      exit_cause := MainLoopExit.shutdownSignal }).2.2.2.2.2.2.2.2.2.2.2.2.1

/-- The flag trace starting from an already-set flag shows no meaningful
transition at all. -/
theorem meaningful_transitions_setTrace_true (n : Nat) :
    meaningful_transitions (setTrace true n) = 0 := by
  induction n with
  | zero => rfl
  | succ m ih =>
    obtain ⟨t, ht⟩ : ∃ t, setTrace true m = true :: t := by
      cases m <;> exact ⟨_, rfl⟩
    have hst : setTrace true (m + 1) = true :: setTrace true m := by
      simp [setTrace, Event.set]
    have h2 : meaningful_transitions (true :: true :: t)
        = meaningful_transitions (true :: t) := by
      simp [meaningful_transitions]
    rw [hst, ht, h2, ← ht, ih]

/-- C4: setting the shared shutdown flag is idempotent — the supervisor's
signal handler applied twice equals it applied once, `n ≥ 1` deliveries
leave the flag exactly as one delivery does, the flag makes at most one
meaningful not-requested → requested transition under any number of set
calls, the `_check_shutdown` poll loop raises `Shutdown` exactly once (at
the first poll observing the flag set, whatever is observed afterwards),
and the `run_single` teardown sequence appears exactly once in the trace
for every environment and exit cause. -/
theorem shutdown_flag_idempotent :
    (∀ e : Bool, run_multiple_shutdown (run_multiple_shutdown e) = run_multiple_shutdown e) ∧
    (∀ (e : Bool) (n : Nat), 1 ≤ n → Event.set^[n] e = Event.set e) ∧
    (∀ (e : Bool) (n : Nat), meaningful_transitions (setTrace e n) ≤ 1) ∧
    (∀ (k : Nat) (rest : List Bool),
      _check_shutdown (List.replicate k false ++ true :: rest) = some k) ∧
    (∀ p : RunSingleParams,
      (run_single_trace p).count SEv.serverClosed = 1 ∧
      (run_single_trace p).count SEv.lifespanShutdownWaited = 1 ∧
      (run_single_trace p).count SEv.loopClosed = 1) := by
  refine ⟨fun e => rfl, ?_, ?_, ?_, ?_⟩
  · intro e n h
    cases n with
    | zero => omega
    | succ m => simp [Function.iterate_succ_apply', Event.set]
  · intro e n
    cases n with
    | zero => cases e <;> decide
    | succ m =>
      obtain ⟨t, ht⟩ : ∃ t, setTrace true m = true :: t := by
        cases m <;> exact ⟨_, rfl⟩
      have hst : setTrace e (m + 1) = e :: setTrace true m := by
        simp [setTrace, Event.set]
      cases e with
      | true =>
        have h2 : meaningful_transitions (true :: true :: t)
            = meaningful_transitions (true :: t) := by
          simp [meaningful_transitions]
        rw [hst, ht, h2, ← ht, meaningful_transitions_setTrace_true m]
        omega
      | false =>
        have h2 : meaningful_transitions (false :: true :: t)
            = 1 + meaningful_transitions (true :: t) := by
          simp [meaningful_transitions]
        rw [hst, ht, h2, ← ht, meaningful_transitions_setTrace_true m]
  · intro k rest
    induction k with
    | zero => simp [_check_shutdown]
    | succ m ih =>
      rw [List.replicate_succ, List.cons_append]
      simp [_check_shutdown, ih]
  · intro p
    obtain ⟨hse, iw, rhs, ex⟩ := p
    cases hse <;> cases iw <;> cases rhs <;> cases ex <;> decide

/-- Witness for C4: three signal deliveries starting from an unset flag
leave the flag exactly as one delivery does, and the poll loop that
observes `false, false, true, true` raises `Shutdown` at poll 2 only. -/
theorem shutdown_flag_idempotent_witness :
    (Event.set^[3] false = Event.set false) ∧
    (_check_shutdown (List.replicate 2 false ++ true :: [true]) = some 2) :=
  ⟨shutdown_flag_idempotent.2.1 false 3 (by decide),
   shutdown_flag_idempotent.2.2.2.1 2 [true]⟩

/-- C9 counterexample: triggered by an interrupt/terminate signal (the
`Shutdown` exception, which carries exit status 1), `run_single` does not
exit the process with that status — the exception is caught with `pass`
and the call returns normally. -/
theorem run_single_signal_exit_counterexample :
    run_single_result MainLoopExit.shutdownSignal "python3" ["hypercorn", "app:app"]
      = RunSingleOutcome.normalReturn ∧
    run_single_result MainLoopExit.shutdownSignal "python3" ["hypercorn", "app:app"]
      ≠ RunSingleOutcome.exitWithCode Shutdown.code := by
  decide

/-- C9 (amended): the `Shutdown` condition raised by an interrupt or
terminate signal carries exit status 1, but `run_single` catches it
(together with `KeyboardInterrupt`) and, after the teardown, returns
normally instead of exiting with that status; on a reload trigger it
replaces its own process image, re-launching `sys.executable` with the
original command-line arguments, strictly after the teardown. -/
theorem run_single_signal_swallowed_reload_execv :
    (Shutdown.code = 1) ∧
    (∀ (exe : String) (argv : List String),
      run_single_result MainLoopExit.shutdownSignal exe argv
        = RunSingleOutcome.normalReturn) ∧
    (∀ (exe : String) (argv : List String),
      run_single_result MainLoopExit.keyboardInterrupt exe argv
        = RunSingleOutcome.normalReturn) ∧
    (∀ (exe : String) (argv : List String),
      run_single_result MainLoopExit.mustReload exe argv
        = RunSingleOutcome.execvRestart exe (exe :: argv)) ∧
    (∀ p : RunSingleParams, p.exit_cause = MainLoopExit.shutdownSignal →
      (run_single_trace p).count SEv.serverClosed = 1 ∧
      (run_single_trace p).count SEv.execvCalled = 0) ∧
    (∀ p : RunSingleParams, p.exit_cause = MainLoopExit.mustReload →
      (run_single_trace p).count SEv.execvCalled = 1 ∧
      (run_single_trace p).indexOf SEv.loopClosed
        < (run_single_trace p).indexOf SEv.execvCalled) := by
  refine ⟨rfl, fun _ _ => rfl, fun _ _ => rfl, fun _ _ => rfl, ?_, ?_⟩
  · intro p h
    obtain ⟨hse, iw, rhs, ex⟩ := p
    simp only at h
    subst h
    cases hse <;> cases iw <;> cases rhs <;> decide
  · intro p h
    obtain ⟨hse, iw, rhs, ex⟩ := p
    simp only at h
    subst h
    cases hse <;> cases iw <;> cases rhs <;> decide

/-- Witness for C9 (amended) at concrete inputs: a shutdown-signal run
performs its teardown once with no `execv`, and a reload run calls
`execv` after closing the loop. -/
theorem run_single_signal_swallowed_reload_execv_witness :
    ((run_single_trace
        { has_shutdown_event := false, is_windows := false,
          remove_handlers_supported := true,
          exit_cause := MainLoopExit.shutdownSignal }).count SEv.serverClosed = 1 ∧
      (run_single_trace
        { has_shutdown_event := false, is_windows := false,
          remove_handlers_supported := true,
          exit_cause := MainLoopExit.shutdownSignal }).count SEv.execvCalled = 0) ∧
    ((run_single_trace
        { has_shutdown_event := false, is_windows := false,
          remove_handlers_supported := true,
          exit_cause := MainLoopExit.mustReload }).count SEv.execvCalled = 1 ∧
      (run_single_trace
        { has_shutdown_event := false, is_windows := false,
          remove_handlers_supported := true,
          exit_cause := MainLoopExit.mustReload }).indexOf SEv.loopClosed
        < (run_single_trace
        { has_shutdown_event := false, is_windows := false,
          remove_handlers_supported := true,
          exit_cause := MainLoopExit.mustReload }).indexOf SEv.execvCalled) :=
  ⟨run_single_signal_swallowed_reload_execv.2.2.2.2.1
      { has_shutdown_event := false, is_windows := false,
        remove_handlers_supported := true,
        exit_cause := MainLoopExit.shutdownSignal } rfl,
   run_single_signal_swallowed_reload_execv.2.2.2.2.2
      { has_shutdown_event := false, is_windows := false,
        remove_handlers_supported := true,
        exit_cause := MainLoopExit.mustReload } rfl⟩

/-- C5: `_cancel_all_other_tasks` issues a cancellation to every task
except the protected lifespan task (and never to the protected task),
awaits all of them to a terminal state, reports every task that finished
with an exception through the loop's exception handler — naming the task
and its error — reports nothing else, and returns normally instead of
re-raising any collected exception. -/
theorem cancel_tasks_collect_and_report (E : Type)
    (all_tasks : List (Nat × TaskOutcome E)) (protected_task : Nat) :
    ∃ cancels reports,
      _cancel_all_other_tasks all_tasks protected_task = Except.ok (cancels, reports) ∧
      (∀ t ∈ all_tasks, t.1 ≠ protected_task → t.1 ∈ cancels) ∧
      protected_task ∉ cancels ∧
      (∀ r ∈ reports, r.task ≠ protected_task ∧
        (r.task, TaskOutcome.errored r.exception) ∈ all_tasks ∧
        r.message = "unhandled exception during asyncio.run() shutdown") ∧
      (∀ t ∈ all_tasks, t.1 ≠ protected_task → ∀ e, t.2 = TaskOutcome.errored e →
        ExcReport.mk "unhandled exception during asyncio.run() shutdown" e t.1 ∈ reports) := by
  refine ⟨_, _, rfl, ?_, ?_, ?_, ?_⟩
  · intro t ht hne
    exact List.mem_map_of_mem Prod.fst (List.mem_filter.mpr ⟨ht, by simpa using hne⟩)
  · intro hmem
    rw [List.mem_map] at hmem
    obtain ⟨t, htf, hfst⟩ := hmem
    rw [List.mem_filter] at htf
    have hne := htf.2
    simp only [bne_iff_ne, ne_eq] at hne
    exact hne hfst
  · intro r hr
    rw [List.mem_filterMap] at hr
    obtain ⟨t, htf, hft⟩ := hr
    rw [List.mem_filter] at htf
    obtain ⟨hta, hp⟩ := htf
    rcases t with ⟨id, outcome⟩
    cases outcome with
    | cancelled => simp at hft
    | completed => simp at hft
    | errored e =>
      simp only [Option.some.injEq] at hft
      subst hft
      simp only [bne_iff_ne, ne_eq] at hp
      exact ⟨hp, hta, rfl⟩
  · intro t ht hne e he
    rcases t with ⟨id, outcome⟩
    dsimp only at he hne
    subst he
    rw [List.mem_filterMap]
    exact ⟨(id, TaskOutcome.errored e),
      List.mem_filter.mpr ⟨ht, by simpa using hne⟩, rfl⟩

/-- Witness for C5 on a concrete loop: tasks 0 (errored), 1 (cancelled)
and 2 (completed) with protected lifespan task 7. -/
theorem cancel_tasks_collect_and_report_witness :
    ∃ cancels reports,
      _cancel_all_other_tasks
        [((0 : Nat), TaskOutcome.errored "boom"), ((1 : Nat), TaskOutcome.cancelled),
         ((2 : Nat), (TaskOutcome.completed : TaskOutcome String))] 7
        = Except.ok (cancels, reports) ∧
      (∀ t ∈ [((0 : Nat), TaskOutcome.errored "boom"), ((1 : Nat), TaskOutcome.cancelled),
         ((2 : Nat), (TaskOutcome.completed : TaskOutcome String))],
        t.1 ≠ 7 → t.1 ∈ cancels) ∧
      (7 : Nat) ∉ cancels ∧
      (∀ r ∈ reports, r.task ≠ 7 ∧
        (r.task, TaskOutcome.errored r.exception)
          ∈ [((0 : Nat), TaskOutcome.errored "boom"), ((1 : Nat), TaskOutcome.cancelled),
             ((2 : Nat), (TaskOutcome.completed : TaskOutcome String))] ∧
        r.message = "unhandled exception during asyncio.run() shutdown") ∧
      (∀ t ∈ [((0 : Nat), TaskOutcome.errored "boom"), ((1 : Nat), TaskOutcome.cancelled),
         ((2 : Nat), (TaskOutcome.completed : TaskOutcome String))],
        t.1 ≠ 7 → ∀ e, t.2 = TaskOutcome.errored e →
        ExcReport.mk "unhandled exception during asyncio.run() shutdown" e t.1 ∈ reports) :=
  cancel_tasks_collect_and_report String
    [((0 : Nat), TaskOutcome.errored "boom"), ((1 : Nat), TaskOutcome.cancelled),
     ((2 : Nat), (TaskOutcome.completed : TaskOutcome String))] 7

/-- The socket-acquisition action list has one of two concrete shapes,
each creating exactly one socket. -/
theorem socket_acquisition_cases (config : Config) :
    socket_acquisition config = [MEv.socketCreated, MEv.socketBound] ∨
    socket_acquisition config = [MEv.socketCreated] := by
  unfold socket_acquisition
  by_cases h1 : config.unix_domain.isSome
  · rw [if_pos h1]
    exact Or.inl rfl
  · rw [if_neg h1]
    by_cases h2 : config.file_descriptor.isSome
    · rw [if_pos h2]
      exact Or.inr rfl
    · rw [if_neg h2]
      exact Or.inl rfl

/-- Every element of a mapped list fails `p` when `p` fails on the whole
image of `f`. -/
theorem forall_mem_map_false {α β : Type} (f : α → β) (l : List α) (p : β → Bool)
    (h : ∀ a, p (f a) = false) : ∀ x ∈ l.map f, p x = false := by
  intro x hx
  rw [List.mem_map] at hx
  obtain ⟨a, -, rfl⟩ := hx
  exact h a

/-- An element outside the image of `f` has count 0 in a mapped list. -/
theorem count_map_eq_zero {α β : Type} [DecidableEq β] (f : α → β) (l : List α) (e : β)
    (h : ∀ a, f a ≠ e) : (l.map f).count e = 0 := by
  rw [List.count_eq_zero, List.mem_map]
  rintro ⟨a, -, ha⟩
  exact h a ha

/-- A predicate failing on the whole image of `f` has countP 0 on a
mapped list. -/
theorem countP_map_eq_zero {α β : Type} (f : α → β) (l : List α) (p : β → Bool)
    (h : ∀ a, p (f a) = false) : (l.map f).countP p = 0 := by
  rw [List.countP_map, List.countP_eq_zero]
  intro a _
  simp [Function.comp, h a]

/-- A mapped `spawn` segment consists of spawn events only. -/
theorem countP_map_spawn (n : Nat) :
    ((List.range n).map MEv.spawn).countP isSpawn = n := by
  rw [List.countP_map]
  rw [show (isSpawn ∘ MEv.spawn) = fun _ => true from funext fun a => rfl]
  rw [List.countP_true, List.length_range]

/-- C6: in `run_multiple`, exactly one listening socket is created and it
is marked inheritable before any worker is spawned; the socket is closed
exactly once, and only after every worker has been joined (every `spawn`
and every `join` precedes the close, and each of the `config.workers`
workers is spawned and joined). -/
theorem run_multiple_socket_lifecycle (config : Config)
    (h : config.use_reloader = false) :
    ∃ tr, run_multiple config = Except.ok tr ∧
      tr.count MEv.socketCreated = 1 ∧
      tr.count MEv.setInheritable = 1 ∧
      tr.count MEv.socketClosed = 1 ∧
      (∀ i, i < config.workers → MEv.spawn i ∈ tr) ∧
      (∀ i, i < config.workers → MEv.join i ∈ tr) ∧
      eventsBefore tr isSocketCreated isSpawn ∧
      eventsBefore tr isSetInheritable isSpawn ∧
      eventsBefore tr isSpawn isSocketClosed ∧
      eventsBefore tr isJoin isSocketClosed := by
  have hA := socket_acquisition_cases config
  have htr : run_multiple config = Except.ok (socket_acquisition config
      ++ [MEv.setsockoptReuseaddr, MEv.setInheritable, MEv.sigintIgnored,
          MEv.shutdownEventCreated]
      ++ (List.range config.workers).map MEv.spawn
      ++ [MEv.shutdownHandlersInstalled]
      ++ (List.range config.workers).map MEv.join
      ++ (List.range config.workers).map MEv.terminate
      ++ [MEv.socketClosed]) := by
    simp [run_multiple, h]
  refine ⟨_, htr, ?_, ?_, ?_, ?_, ?_, ?_, ?_, ?_, ?_⟩
  · have hA1 : (socket_acquisition config).count MEv.socketCreated = 1 := by
      rcases hA with hA1 | hA1 <;> rw [hA1] <;> decide
    simp only [List.count_append]
    rw [hA1, count_map_eq_zero MEv.spawn _ _ (fun a hc => MEv.noConfusion hc),
        count_map_eq_zero MEv.join _ _ (fun a hc => MEv.noConfusion hc),
        count_map_eq_zero MEv.terminate _ _ (fun a hc => MEv.noConfusion hc)]
    decide
  · have hA0 : (socket_acquisition config).count MEv.setInheritable = 0 := by
      rcases hA with hA1 | hA1 <;> rw [hA1] <;> decide
    simp only [List.count_append]
    rw [hA0, count_map_eq_zero MEv.spawn _ _ (fun a hc => MEv.noConfusion hc),
        count_map_eq_zero MEv.join _ _ (fun a hc => MEv.noConfusion hc),
        count_map_eq_zero MEv.terminate _ _ (fun a hc => MEv.noConfusion hc)]
    decide
  · have hA0 : (socket_acquisition config).count MEv.socketClosed = 0 := by
      rcases hA with hA1 | hA1 <;> rw [hA1] <;> decide
    simp only [List.count_append]
    rw [hA0, count_map_eq_zero MEv.spawn _ _ (fun a hc => MEv.noConfusion hc),
        count_map_eq_zero MEv.join _ _ (fun a hc => MEv.noConfusion hc),
        count_map_eq_zero MEv.terminate _ _ (fun a hc => MEv.noConfusion hc)]
    decide
  · intro i hi
    have hbase : MEv.spawn i ∈ (List.range config.workers).map MEv.spawn :=
      List.mem_map_of_mem _ (List.mem_range.mpr hi)
    exact List.mem_append_left _ (List.mem_append_left _ (List.mem_append_left _
      (List.mem_append_left _ (List.mem_append_right _ hbase))))
  · intro i hi
    have hbase : MEv.join i ∈ (List.range config.workers).map MEv.join :=
      List.mem_map_of_mem _ (List.mem_range.mpr hi)
    exact List.mem_append_left _ (List.mem_append_left _ (List.mem_append_right _ hbase))
  · simp only [List.append_assoc]
    apply eventsBefore_append
    · rcases hA with hA1 | hA1 <;> rw [hA1] <;> decide
    · simp only [List.forall_mem_append, and_assoc]
      refine ⟨by decide, ?_, by decide, ?_, ?_, by decide⟩
      · exact forall_mem_map_false MEv.spawn _ isSocketCreated (fun a => rfl)
      · exact forall_mem_map_false MEv.join _ isSocketCreated (fun a => rfl)
      · exact forall_mem_map_false MEv.terminate _ isSocketCreated (fun a => rfl)
  · simp only [List.append_assoc]
    rw [← List.append_assoc]
    apply eventsBefore_append
    · simp only [List.forall_mem_append, and_assoc]
      refine ⟨?_, by decide⟩
      rcases hA with hA1 | hA1 <;> rw [hA1] <;> decide
    · simp only [List.forall_mem_append, and_assoc]
      refine ⟨?_, by decide, ?_, ?_, by decide⟩
      · exact forall_mem_map_false MEv.spawn _ isSetInheritable (fun a => rfl)
      · exact forall_mem_map_false MEv.join _ isSetInheritable (fun a => rfl)
      · exact forall_mem_map_false MEv.terminate _ isSetInheritable (fun a => rfl)
  · apply eventsBefore_append
    · simp only [List.forall_mem_append, and_assoc]
      refine ⟨?_, by decide, ?_, by decide, ?_, ?_⟩
      · rcases hA with hA1 | hA1 <;> rw [hA1] <;> decide
      · exact forall_mem_map_false MEv.spawn _ isSocketClosed (fun a => rfl)
      · exact forall_mem_map_false MEv.join _ isSocketClosed (fun a => rfl)
      · exact forall_mem_map_false MEv.terminate _ isSocketClosed (fun a => rfl)
    · decide
  · apply eventsBefore_append
    · simp only [List.forall_mem_append, and_assoc]
      refine ⟨?_, by decide, ?_, by decide, ?_, ?_⟩
      · rcases hA with hA1 | hA1 <;> rw [hA1] <;> decide
      · exact forall_mem_map_false MEv.spawn _ isSocketClosed (fun a => rfl)
      · exact forall_mem_map_false MEv.join _ isSocketClosed (fun a => rfl)
      · exact forall_mem_map_false MEv.terminate _ isSocketClosed (fun a => rfl)
    · decide

/-- Witness for C6: a two-worker TCP configuration without reloader. -/
theorem run_multiple_socket_lifecycle_witness :
    ∃ tr, run_multiple
        { use_reloader := false, workers := 2, unix_domain := none,
          file_descriptor := none, host := "127.0.0.1", port := 8000 } = Except.ok tr ∧
      tr.count MEv.socketCreated = 1 ∧
      tr.count MEv.setInheritable = 1 ∧
      tr.count MEv.socketClosed = 1 ∧
      (∀ i, i < 2 → MEv.spawn i ∈ tr) ∧
      (∀ i, i < 2 → MEv.join i ∈ tr) ∧
      eventsBefore tr isSocketCreated isSpawn ∧
      eventsBefore tr isSetInheritable isSpawn ∧
      eventsBefore tr isSpawn isSocketClosed ∧
      eventsBefore tr isJoin isSocketClosed :=
  run_multiple_socket_lifecycle
    { use_reloader := false, workers := 2, unix_domain := none,
      file_descriptor := none, host := "127.0.0.1", port := 8000 } rfl

/-- C7: a configuration asking for the reloader together with multiple
workers is rejected by `run_multiple` with a `RuntimeError` raised before
any socket is created or worker spawned (the model returns the error
having performed no action at all). -/
theorem run_multiple_rejects_reloader (config : Config)
    (h : config.use_reloader = true) (_hw : 1 < config.workers) :
    run_multiple config = Except.error "Reloader can only be used with a single worker" := by
  simp [run_multiple, h]

/-- Witness for C7: reloader plus three workers fails fast. -/
theorem run_multiple_rejects_reloader_witness :
    run_multiple
        { use_reloader := true, workers := 3, unix_domain := none,
          file_descriptor := none, host := "127.0.0.1", port := 8000 }
      = Except.error "Reloader can only be used with a single worker" :=
  run_multiple_rejects_reloader
    { use_reloader := true, workers := 3, unix_domain := none,
      file_descriptor := none, host := "127.0.0.1", port := 8000 } rfl (by decide)

/-- C10: `run` dispatches to the single-process runtime exactly when the
configured worker count is 1 and to `run_multiple` in every other case
(including a worker count of 0), and `run_multiple` spawns exactly
`config.workers` worker processes. -/
theorem run_dispatch_worker_paths (config : Config) :
    (run config = RunPath.single ↔ config.workers = 1) ∧
    (run config = RunPath.multiple ↔ config.workers ≠ 1) ∧
    (config.use_reloader = false →
      ∃ tr, run_multiple config = Except.ok tr ∧
        tr.countP isSpawn = config.workers) := by
  refine ⟨?_, ?_, ?_⟩
  · by_cases hw : config.workers = 1 <;> simp [run, hw]
  · by_cases hw : config.workers = 1 <;> simp [run, hw]
  · intro h
    have htr : run_multiple config = Except.ok (socket_acquisition config
        ++ [MEv.setsockoptReuseaddr, MEv.setInheritable, MEv.sigintIgnored,
            MEv.shutdownEventCreated]
        ++ (List.range config.workers).map MEv.spawn
        ++ [MEv.shutdownHandlersInstalled]
        ++ (List.range config.workers).map MEv.join
        ++ (List.range config.workers).map MEv.terminate
        ++ [MEv.socketClosed]) := by
      simp [run_multiple, h]
    refine ⟨_, htr, ?_⟩
    have hAz : (socket_acquisition config).countP isSpawn = 0 := by
      rcases socket_acquisition_cases config with hA1 | hA1 <;> rw [hA1] <;> decide
    have hP : ([MEv.setsockoptReuseaddr, MEv.setInheritable, MEv.sigintIgnored,
        MEv.shutdownEventCreated]).countP isSpawn = 0 := by decide
    have hH : ([MEv.shutdownHandlersInstalled]).countP isSpawn = 0 := by decide
    have hZ : ([MEv.socketClosed]).countP isSpawn = 0 := by decide
    simp only [List.countP_append]
    rw [hAz, hP, hH, hZ, countP_map_spawn,
        countP_map_eq_zero MEv.join _ _ (fun a => rfl),
        countP_map_eq_zero MEv.terminate _ _ (fun a => rfl)]
    omega

/-- Witness for C10: a zero-worker configuration takes the supervisor
path and spawns zero workers. -/
theorem run_dispatch_worker_paths_witness :
    (run
        { use_reloader := false, workers := 0, unix_domain := none,
          file_descriptor := none, host := "127.0.0.1", port := 8000 } = RunPath.multiple) ∧
    ∃ tr, run_multiple
        { use_reloader := false, workers := 0, unix_domain := none,
          file_descriptor := none, host := "127.0.0.1", port := 8000 } = Except.ok tr ∧
      tr.countP isSpawn = 0 :=
  ⟨(run_dispatch_worker_paths
      { use_reloader := false, workers := 0, unix_domain := none,
        file_descriptor := none, host := "127.0.0.1", port := 8000 }).2.1.mpr (by decide),
   (run_dispatch_worker_paths
      { use_reloader := false, workers := 0, unix_domain := none,
        file_descriptor := none, host := "127.0.0.1", port := 8000 }).2.2 rfl⟩

end Hypercorn
